import Mathlib

/-!
Verification of the WFS/WMS client pair (`src/main.rs`, `src/wms.rs`).

The two service clients are embedded shallowly: URL construction and the
per-variant request decoration are translated directly from the source;
the network transport and the external GeoJSON decoder (`geozero`'s
`to_geo`, a third-party library) are parameters of the fetch pipeline,
so every claim about the pipeline is stated for all transports and all
decoders.
-/

/-- Authentication methods for WFS servers (`WfsAuth` in `src/main.rs`). -/
inductive WfsAuth where
  /-- Basic HTTP authentication -/
  | basic (username password : String)
  /-- Token-based authentication -/
  | bearerToken (token : String)
  /-- API key in query parameter -/
  | apiKey (param_name key : String)
  /-- Cookie-based authentication -/
  | cookie (cookie : String)
deriving DecidableEq, Repr

/-- Authentication methods for WMS servers (`WmsAuth` in `src/wms.rs`).
The source duplicates the enum, so we do too. -/
inductive WmsAuth where
  | basic (username password : String)
  | bearerToken (token : String)
  | apiKey (param_name key : String)
  | cookie (cookie : String)
deriving DecidableEq, Repr

/-- The authentication data a fetch call attaches to the outgoing request
as a header: `request.basic_auth`, `request.bearer_auth`, or a `Cookie`
header in the source. -/
inductive AuthHeader where
  | basicAuth (username password : String)
  | bearerAuth (token : String)
  | cookieHeader (value : String)
deriving DecidableEq, Repr

/-- An outgoing GET request: the final URL plus the optional
authentication header the client decorated it with. -/
structure Request where
  url : String
  authHeader : Option AuthHeader
deriving DecidableEq, Repr

/-- Error taxonomy of the clients (spec section 7).  In the source all
cases are `Box<dyn Error>` values; the constructors record which exit
path produced them. -/
inductive FetchError where
  /-- non-success HTTP status, carrying the status code -/
  | requestFailed (status : Nat)
  /-- response body could not be parsed as GeoJSON -/
  | decodeFailed
  /-- transport-level failure before a response arrived -/
  | transportError
deriving DecidableEq, Repr

/-- `reqwest::StatusCode::is_success`: status in `[200, 300)`. -/
def statusIsSuccess (s : Nat) : Bool :=
  200 ≤ s && s < 300

/-- Client for accessing WFS services (`WfsClient` in `src/main.rs`).
The `reqwest` transport handle is not part of the state here; it is a
parameter of the fetch operation. -/
structure WfsClient where
  base_url : String
  auth : Option WfsAuth
deriving DecidableEq, Repr

/-- URL construction of `WfsClient::fetch_features` (`src/main.rs`
lines 54–73): base query string, then optional `bbox`, then optional
`count`, then the API-key parameter when that auth variant is
configured. -/
def WfsClient.buildUrl (c : WfsClient) (layer_name : String)
    (bbox : Option String) (max_features : Option Nat) : String :=
  let url := c.base_url ++ "?service=WFS&version=2.0.0&request=GetFeature&typeName="
      ++ layer_name ++ "&outputFormat=GEOJSON&srsname=EPSG:25832"
  let url := match bbox with
    | some b => url ++ ("&bbox=" ++ b)
    | none => url
  let url := match max_features with
    | some m => url ++ ("&count=" ++ toString m)
    | none => url
  match c.auth with
  | some (WfsAuth.apiKey param_name key) => url ++ ("&" ++ param_name ++ "=" ++ key)
  | _ => url

/-- Request decoration of `WfsClient::fetch_features` (`src/main.rs`
lines 78–94): the match over the configured auth variant.  `ApiKey` is
already handled in URL construction and attaches no header. -/
def WfsClient.requestHeader (c : WfsClient) : Option AuthHeader :=
  match c.auth with
  | some (WfsAuth.basic u p) => some (AuthHeader.basicAuth u p)
  | some (WfsAuth.bearerToken t) => some (AuthHeader.bearerAuth t)
  | some (WfsAuth.cookie s) => some (AuthHeader.cookieHeader s)
  | some (WfsAuth.apiKey _ _) => none
  | none => none

/-- The complete outgoing request of one `fetch_features` call. -/
def WfsClient.buildRequest (c : WfsClient) (layer_name : String)
    (bbox : Option String) (max_features : Option Nat) : Request :=
  { url := c.buildUrl layer_name bbox max_features
    authHeader := c.requestHeader }

/-- A response as `fetch_features` consumes it: HTTP status and the full
body text (`response.text()`). -/
structure WfsResponse where
  status : Nat
  body : String
deriving DecidableEq, Repr

/-- Response handling of `WfsClient::fetch_features` (`src/main.rs`
lines 97–115): a transport error propagates; a non-success status fails
with the status code; otherwise the body is decoded by `to_geo` (the
external decoder, a parameter here) and the single decoded geometry is
wrapped in a one-element vector. -/
def processWfsResponse {G : Type} (toGeo : String → Except Unit G)
    (r : Except Unit WfsResponse) : Except FetchError (List G) :=
  match r with
  | Except.error _ => Except.error FetchError.transportError
  | Except.ok resp =>
    if statusIsSuccess resp.status then
      match toGeo resp.body with
      | Except.ok g => Except.ok [g]
      | Except.error _ => Except.error FetchError.decodeFailed
    else
      Except.error (FetchError.requestFailed resp.status)

/-- `WfsClient::fetch_features` end to end: build the URL and request,
execute it through the transport, and process the response. -/
def WfsClient.fetch_features {G : Type} (c : WfsClient)
    (toGeo : String → Except Unit G)
    (transport : Request → Except Unit WfsResponse)
    (layer_name : String) (bbox : Option String) (max_features : Option Nat) :
    Except FetchError (List G) :=
  processWfsResponse toGeo (transport (c.buildRequest layer_name bbox max_features))

/-- Client for accessing WMS services (`WmsClient` in `src/wms.rs`). -/
structure WmsClient where
  base_url : String
  auth : Option WmsAuth
deriving DecidableEq, Repr

/-- URL construction of `WmsClient::fetch_map_tile` (`src/wms.rs` lines
56–66): one fixed-order query string (all parameters required), then the
API-key parameter when that auth variant is configured.  Rust's
`Display` for `bool` prints `true`/`false`. -/
def WmsClient.buildUrl (c : WmsClient) (layers bbox : String)
    (width height : Nat) (srs format : String) (transparent : Bool) : String :=
  let url := c.base_url ++ "?SERVICE=WMS&VERSION=1.3.0&REQUEST=GetMap&LAYERS="
      ++ layers ++ "&BBOX=" ++ bbox ++ "&WIDTH=" ++ toString width
      ++ "&HEIGHT=" ++ toString height ++ "&CRS=" ++ srs ++ "&FORMAT=" ++ format
      ++ "&TRANSPARENT=" ++ (if transparent then "true" else "false")
      ++ "&styles=default"
  match c.auth with
  | some (WmsAuth.apiKey param_name key) => url ++ ("&" ++ param_name ++ "=" ++ key)
  | _ => url

/-- Request decoration of `WmsClient::fetch_map_tile` (`src/wms.rs`
lines 71–87), identical in shape to the WFS client's. -/
def WmsClient.requestHeader (c : WmsClient) : Option AuthHeader :=
  match c.auth with
  | some (WmsAuth.basic u p) => some (AuthHeader.basicAuth u p)
  | some (WmsAuth.bearerToken t) => some (AuthHeader.bearerAuth t)
  | some (WmsAuth.cookie s) => some (AuthHeader.cookieHeader s)
  | some (WmsAuth.apiKey _ _) => none
  | none => none

/-- The complete outgoing request of one `fetch_map_tile` call. -/
def WmsClient.buildRequest (c : WmsClient) (layers bbox : String)
    (width height : Nat) (srs format : String) (transparent : Bool) : Request :=
  { url := c.buildUrl layers bbox width height srs format transparent
    authHeader := c.requestHeader }

/-- A response as `fetch_map_tile` consumes it: HTTP status and the raw
body bytes (`response.bytes()`). -/
structure WmsResponse where
  status : Nat
  bytes : List Nat
deriving DecidableEq, Repr

/-- Response handling of `WmsClient::fetch_map_tile` (`src/wms.rs` lines
90–99): a transport error propagates; a non-success status fails with
the status code; otherwise the raw bytes are returned untouched. -/
def processWmsResponse (r : Except Unit WmsResponse) :
    Except FetchError (List Nat) :=
  match r with
  | Except.error _ => Except.error FetchError.transportError
  | Except.ok resp =>
    if statusIsSuccess resp.status then
      Except.ok resp.bytes
    else
      Except.error (FetchError.requestFailed resp.status)

/-- `WmsClient::fetch_map_tile` end to end. -/
def WmsClient.fetch_map_tile (c : WmsClient)
    (transport : Request → Except Unit WmsResponse)
    (layers bbox : String) (width height : Nat) (srs format : String)
    (transparent : Bool) : Except FetchError (List Nat) :=
  processWmsResponse (transport (c.buildRequest layers bbox width height srs format transparent))

/-- A model of the local filesystem as `save_tile_to_file` touches it: the
set of existing directories and a map from file paths to byte contents. -/
structure FileSystem where
  dirs : List String
  files : List (String × List Nat)
deriving DecidableEq, Repr

/-- Characters of a path before its last `/`, or `none` when the path has
no `/` (a bare file name in the current directory). -/
def parentDirAux : List Char → Option (List Char)
  | [] => none
  | c :: cs =>
    match parentDirAux cs with
    | some rest => some (c :: rest)
    | none => if c = '/' then some [] else none

/-- The directory component of a file path; `"."` for a bare file name. -/
def parentDir (p : String) : String :=
  match parentDirAux p.data with
  | some cs => String.mk cs
  | none => "."

/-- Content of the file at `p`, when it exists. -/
def FileSystem.readFile (fs : FileSystem) (p : String) : Option (List Nat) :=
  (fs.files.find? (fun e => e.1 == p)).map Prod.snd

/-- `WmsClient::save_tile_to_file` (`src/wms.rs` lines 102–108) against the
filesystem model.  Modelled from the spec: the semantics of
`std::fs::File::create` and `Write::write_all` are outside `src/` —
`File::create` creates or truncates the file when its parent directory
exists and fails with an io error (creating nothing) otherwise, and
`write_all` writes the complete buffer.  The second component of the
result is the filesystem after the call. -/
def WmsClient.save_tile_to_file (fs : FileSystem) (data : List Nat)
    (filepath : String) : Except Unit Unit × FileSystem :=
  if fs.dirs.contains (parentDir filepath) then
    (Except.ok (), { fs with
      files := (filepath, data) :: fs.files.eraseP (fun e => e.1 == filepath) })
  else
    (Except.error (), fs)

/-- C1: `fetch_features` builds the request URL as
`{baseUrl}?service=WFS&version=2.0.0&request=GetFeature&typeName={layer}&outputFormat=GEOJSON&srsname={crs}`
(with the client's fixed CRS `EPSG:25832`), followed in this order by
`&bbox={bbox}` only when a bounding box is supplied, `&count={max}` only
when a count is supplied, and the API-key parameter only when `ApiKey`
auth is configured; nothing is appended for an absent optional input. -/
theorem wfs_feature_url_parameter_order (c : WfsClient) (layer : String)
    (bbox : Option String) (max_features : Option Nat) :
    c.buildUrl layer bbox max_features =
      c.base_url ++ "?service=WFS&version=2.0.0&request=GetFeature&typeName=" ++ layer ++
        "&outputFormat=GEOJSON&srsname=EPSG:25832" ++
        (match bbox with
          | some b => "&bbox=" ++ b
          | none => "") ++
        (match max_features with
          | some m => "&count=" ++ toString m
          | none => "") ++
        (match c.auth with
          | some (WfsAuth.apiKey p k) => "&" ++ p ++ "=" ++ k
          | _ => "") := by
  obtain ⟨base, auth⟩ := c
  rcases bbox with _ | b <;> rcases max_features with _ | m <;>
    rcases auth with _ | (⟨u, p⟩ | t | ⟨p, k⟩ | s) <;>
    simp [WfsClient.buildUrl, String.append_assoc]

/-- C2: with `ApiKey{paramName,key}` auth configured, both fetch
operations append `&paramName=key` to the query string of the URL they
would build without auth, and the `ApiKey` variant attaches no
authentication header to the request. -/
theorem apiKey_appended_to_url_never_header
    (c : WfsClient) (wc : WmsClient) (p k : String)
    (layer : String) (bbox : Option String) (max_features : Option Nat)
    (layers tbbox : String) (w h : Nat) (srs fmt : String) (tp : Bool)
    (hc : c.auth = some (WfsAuth.apiKey p k))
    (hw : wc.auth = some (WmsAuth.apiKey p k)) :
    (c.buildUrl layer bbox max_features =
        WfsClient.buildUrl ⟨c.base_url, none⟩ layer bbox max_features
          ++ ("&" ++ p ++ "=" ++ k))
    ∧ c.requestHeader = none
    ∧ (wc.buildUrl layers tbbox w h srs fmt tp =
        WmsClient.buildUrl ⟨wc.base_url, none⟩ layers tbbox w h srs fmt tp
          ++ ("&" ++ p ++ "=" ++ k))
    ∧ wc.requestHeader = none := by
  obtain ⟨base, auth⟩ := c
  obtain ⟨wbase, wauth⟩ := wc
  simp only at hc hw
  subst hc hw
  refine ⟨?_, rfl, ?_, rfl⟩
  · rcases bbox with _ | b <;> rcases max_features with _ | m <;>
      simp [WfsClient.buildUrl, String.append_assoc]
  · simp [WmsClient.buildUrl, String.append_assoc]

/-- Closed instance of the C2 theorem at a concrete client pair. -/
theorem apiKey_appended_to_url_never_header_witness :
    (WfsClient.buildUrl
        ⟨"http://example.com/wfs", some (WfsAuth.apiKey "apikey" "secret")⟩
        "roads" none none =
      WfsClient.buildUrl ⟨"http://example.com/wfs", none⟩ "roads" none none
        ++ ("&" ++ "apikey" ++ "=" ++ "secret"))
    ∧ WfsClient.requestHeader
        ⟨"http://example.com/wfs", some (WfsAuth.apiKey "apikey" "secret")⟩ = none
    ∧ (WmsClient.buildUrl
        ⟨"http://example.com/wms", some (WmsAuth.apiKey "apikey" "secret")⟩
        "roads" "0,0,1,1" 10 10 "EPSG:25832" "image/png" true =
      WmsClient.buildUrl ⟨"http://example.com/wms", none⟩
        "roads" "0,0,1,1" 10 10 "EPSG:25832" "image/png" true
        ++ ("&" ++ "apikey" ++ "=" ++ "secret"))
    ∧ WmsClient.requestHeader
        ⟨"http://example.com/wms", some (WmsAuth.apiKey "apikey" "secret")⟩ = none :=
  apiKey_appended_to_url_never_header
    ⟨"http://example.com/wfs", some (WfsAuth.apiKey "apikey" "secret")⟩
    ⟨"http://example.com/wms", some (WmsAuth.apiKey "apikey" "secret")⟩
    "apikey" "secret" "roads" none none "roads" "0,0,1,1" 10 10
    "EPSG:25832" "image/png" true rfl rfl

/-- C3: with `Basic`, `BearerToken`, or `Cookie` auth configured, both
fetch operations attach the corresponding authentication header (Basic
credentials, Bearer token, or Cookie header respectively) and build a
URL identical to the URL built with no auth configured. -/
theorem header_auth_decorates_request_never_url
    (c : WfsClient) (a : WfsAuth) (wc : WmsClient) (wa : WmsAuth)
    (layer : String) (bbox : Option String) (max_features : Option Nat)
    (layers tbbox : String) (w h : Nat) (srs fmt : String) (tp : Bool)
    (hc : c.auth = some a) (hnk : ∀ p k, a ≠ WfsAuth.apiKey p k)
    (hw : wc.auth = some wa) (hwnk : ∀ p k, wa ≠ WmsAuth.apiKey p k) :
    (c.buildUrl layer bbox max_features =
      WfsClient.buildUrl ⟨c.base_url, none⟩ layer bbox max_features)
    ∧ (∀ u pw, a = WfsAuth.basic u pw →
        c.requestHeader = some (AuthHeader.basicAuth u pw))
    ∧ (∀ t, a = WfsAuth.bearerToken t →
        c.requestHeader = some (AuthHeader.bearerAuth t))
    ∧ (∀ s, a = WfsAuth.cookie s →
        c.requestHeader = some (AuthHeader.cookieHeader s))
    ∧ (wc.buildUrl layers tbbox w h srs fmt tp =
        WmsClient.buildUrl ⟨wc.base_url, none⟩ layers tbbox w h srs fmt tp)
    ∧ (∀ u pw, wa = WmsAuth.basic u pw →
        wc.requestHeader = some (AuthHeader.basicAuth u pw))
    ∧ (∀ t, wa = WmsAuth.bearerToken t →
        wc.requestHeader = some (AuthHeader.bearerAuth t))
    ∧ (∀ s, wa = WmsAuth.cookie s →
        wc.requestHeader = some (AuthHeader.cookieHeader s)) := by
  obtain ⟨base, auth⟩ := c
  obtain ⟨wbase, wauth⟩ := wc
  simp only at hc hw
  subst hc hw
  rcases a with ⟨u, pw⟩ | t | ⟨p, k⟩ | s
  case apiKey => exact absurd rfl (hnk p k)
  all_goals rcases wa with ⟨wu, wpw⟩ | wt | ⟨wp, wk⟩ | ws
  all_goals first
    | exact absurd rfl (hwnk _ _)
    | (refine ⟨rfl, ?_, ?_, ?_, rfl, ?_, ?_, ?_⟩ <;> intros <;>
        simp_all [WfsClient.requestHeader, WmsClient.requestHeader])

/-- Closed instance of the C3 theorem: a Basic-auth WFS client and a
Cookie-auth WMS client keep the no-auth URL and set the matching
header. -/
theorem header_auth_decorates_request_never_url_witness :
    (WfsClient.buildUrl
        ⟨"http://example.com/wfs", some (WfsAuth.basic "alice" "pw")⟩
        "roads" (some "0,0,1,1") (some 10) =
      WfsClient.buildUrl ⟨"http://example.com/wfs", none⟩
        "roads" (some "0,0,1,1") (some 10))
    ∧ WfsClient.requestHeader
        ⟨"http://example.com/wfs", some (WfsAuth.basic "alice" "pw")⟩
        = some (AuthHeader.basicAuth "alice" "pw")
    ∧ (WmsClient.buildUrl
        ⟨"http://example.com/wms", some (WmsAuth.cookie "sid=1")⟩
        "roads" "0,0,1,1" 10 10 "EPSG:25832" "image/png" false =
      WmsClient.buildUrl ⟨"http://example.com/wms", none⟩
        "roads" "0,0,1,1" 10 10 "EPSG:25832" "image/png" false)
    ∧ WmsClient.requestHeader
        ⟨"http://example.com/wms", some (WmsAuth.cookie "sid=1")⟩
        = some (AuthHeader.cookieHeader "sid=1") := by
  have h := header_auth_decorates_request_never_url
    ⟨"http://example.com/wfs", some (WfsAuth.basic "alice" "pw")⟩
    (WfsAuth.basic "alice" "pw")
    ⟨"http://example.com/wms", some (WmsAuth.cookie "sid=1")⟩
    (WmsAuth.cookie "sid=1")
    "roads" (some "0,0,1,1") (some 10) "roads" "0,0,1,1" 10 10
    "EPSG:25832" "image/png" false
    rfl (fun _ _ hk => by cases hk) rfl (fun _ _ hk => by cases hk)
  exact ⟨h.1, h.2.1 "alice" "pw" rfl, h.2.2.2.2.1, h.2.2.2.2.2.2.2 "sid=1" rfl⟩

/-- C4: when the transport returns a response with a non-success HTTP
status, both fetch operations fail with `RequestFailed` carrying that
status code.  The decoder `toGeo` and the response body are universally
quantified and absent from the conclusion: the body is never read or
parsed on this path. -/
theorem non_success_status_yields_requestFailed {G : Type}
    (c : WfsClient) (wc : WmsClient)
    (toGeo : String → Except Unit G)
    (transport : Request → Except Unit WfsResponse)
    (wtransport : Request → Except Unit WmsResponse)
    (layer : String) (bbox : Option String) (max_features : Option Nat)
    (layers tbbox : String) (w h : Nat) (srs fmt : String) (tp : Bool)
    (resp : WfsResponse) (wresp : WmsResponse)
    (htr : transport (c.buildRequest layer bbox max_features) = Except.ok resp)
    (hs : statusIsSuccess resp.status = false)
    (hwtr : wtransport (wc.buildRequest layers tbbox w h srs fmt tp) = Except.ok wresp)
    (hws : statusIsSuccess wresp.status = false) :
    c.fetch_features toGeo transport layer bbox max_features
        = Except.error (FetchError.requestFailed resp.status)
    ∧ wc.fetch_map_tile wtransport layers tbbox w h srs fmt tp
        = Except.error (FetchError.requestFailed wresp.status) := by
  constructor
  · unfold WfsClient.fetch_features
    rw [htr]
    simp [processWfsResponse, hs]
  · unfold WmsClient.fetch_map_tile
    rw [hwtr]
    simp [processWmsResponse, hws]

/-- Closed instance of the C4 theorem: a 404 feature response and a 500
tile response each surface as `RequestFailed` with that status. -/
theorem non_success_status_yields_requestFailed_witness :
    @WfsClient.fetch_features Nat ⟨"http://example.com/wfs", none⟩
        (fun _ => Except.ok 0) (fun _ => Except.ok ⟨404, "<html>not json</html>"⟩)
        "roads" none none = Except.error (FetchError.requestFailed 404)
    ∧ WmsClient.fetch_map_tile ⟨"http://example.com/wms", none⟩
        (fun _ => Except.ok ⟨500, [1, 2, 3]⟩) "roads" "0,0,1,1" 10 10
        "EPSG:25832" "image/png" true
        = Except.error (FetchError.requestFailed 500) :=
  non_success_status_yields_requestFailed _ _ _ _ _ _ _ _ _ _ _ _ _ _ _
    ⟨404, "<html>not json</html>"⟩ ⟨500, [1, 2, 3]⟩ rfl rfl rfl rfl

/-- C5: when the response has status 200 but the decoder rejects the
body (malformed JSON or no decodable geometry), `fetch_features` fails
with `DecodeFailed`. -/
theorem malformed_body_yields_decodeFailed {G : Type}
    (c : WfsClient) (toGeo : String → Except Unit G)
    (transport : Request → Except Unit WfsResponse)
    (layer : String) (bbox : Option String) (max_features : Option Nat)
    (resp : WfsResponse)
    (htr : transport (c.buildRequest layer bbox max_features) = Except.ok resp)
    (hs : resp.status = 200)
    (hd : toGeo resp.body = Except.error ()) :
    c.fetch_features toGeo transport layer bbox max_features
      = Except.error FetchError.decodeFailed := by
  unfold WfsClient.fetch_features
  rw [htr]
  simp [processWfsResponse, hs, hd, statusIsSuccess]

/-- Closed instance of the C5 theorem at a 200 response whose body the
decoder rejects. -/
theorem malformed_body_yields_decodeFailed_witness :
    @WfsClient.fetch_features Nat ⟨"http://example.com/wfs", none⟩
        (fun _ => Except.error ()) (fun _ => Except.ok ⟨200, "not geojson"⟩)
        "roads" none none = Except.error FetchError.decodeFailed :=
  malformed_body_yields_decodeFailed ⟨"http://example.com/wfs", none⟩
    (fun _ => Except.error ()) (fun _ => Except.ok ⟨200, "not geojson"⟩)
    "roads" none none ⟨200, "not geojson"⟩ rfl rfl rfl

/-- C6: when the response status lies in `[200, 300)` and the decoder
produces the geometry `g` from the body (e.g. a valid single-Feature
GeoJSON document decoding to that feature's geometry), `fetch_features`
succeeds with exactly the one-element sequence `[g]`. -/
theorem success_valid_body_yields_single_geometry {G : Type}
    (c : WfsClient) (toGeo : String → Except Unit G)
    (transport : Request → Except Unit WfsResponse)
    (layer : String) (bbox : Option String) (max_features : Option Nat)
    (resp : WfsResponse) (g : G)
    (htr : transport (c.buildRequest layer bbox max_features) = Except.ok resp)
    (hlo : 200 ≤ resp.status) (hhi : resp.status < 300)
    (hd : toGeo resp.body = Except.ok g) :
    c.fetch_features toGeo transport layer bbox max_features = Except.ok [g] := by
  unfold WfsClient.fetch_features
  rw [htr]
  have hs : statusIsSuccess resp.status = true := by
    unfold statusIsSuccess
    simp
    omega
  simp [processWfsResponse, hs, hd]

/-- Closed instance of the C6 theorem at a 200 response decoding to one
geometry. -/
theorem success_valid_body_yields_single_geometry_witness :
    @WfsClient.fetch_features Nat ⟨"http://example.com/wfs", none⟩
        (fun _ => Except.ok 7)
        (fun _ => Except.ok ⟨200, "single feature geojson"⟩)
        "roads" none none = Except.ok [7] :=
  success_valid_body_yields_single_geometry ⟨"http://example.com/wfs", none⟩
    (fun _ => Except.ok 7) (fun _ => Except.ok ⟨200, "single feature geojson"⟩)
    "roads" none none ⟨200, "single feature geojson"⟩ 7
    rfl (by decide) (by decide) rfl

/-- C7 counterexample: `fetch_features` does not reject a zero
max-feature count.  With `max_features = some 0` the built URL ends in
`&count=0`, the request is sent to the server (the transport observes
exactly that URL), and the call completes through the normal pipeline
instead of failing validation. -/
theorem zero_count_sent_to_server_cex :
    WfsClient.buildUrl ⟨"http://example.com/wfs", none⟩ "roads" none (some 0)
      = "http://example.com/wfs?service=WFS&version=2.0.0&request=GetFeature&typeName=roads&outputFormat=GEOJSON&srsname=EPSG:25832&count=0"
    ∧ @WfsClient.fetch_features Nat ⟨"http://example.com/wfs", none⟩
        (fun _ => Except.ok 7)
        (fun r =>
          if r.url
              = "http://example.com/wfs?service=WFS&version=2.0.0&request=GetFeature&typeName=roads&outputFormat=GEOJSON&srsname=EPSG:25832&count=0"
          then Except.ok ⟨200, "body"⟩
          else Except.error ())
        "roads" none (some 0) = Except.ok [7] := by
  constructor
  · rfl
  · rfl

/-- C7 amended: `fetch_features` performs no validation of the
max-feature count.  For every supplied count `m` — zero included;
negative counts are unrepresentable in the `u32` parameter type — the
URL handed to the transport is the count-free URL with `&count=m`
appended, and the call proceeds through the normal request/response
pipeline. -/
theorem count_never_validated {G : Type} (base layer : String)
    (bbox : Option String) (m : Nat) (toGeo : String → Except Unit G)
    (transport : Request → Except Unit WfsResponse) :
    WfsClient.buildUrl ⟨base, none⟩ layer bbox (some m)
      = WfsClient.buildUrl ⟨base, none⟩ layer bbox none ++ ("&count=" ++ toString m)
    ∧ WfsClient.fetch_features ⟨base, none⟩ toGeo transport layer bbox (some m)
      = processWfsResponse toGeo (transport
          ⟨WfsClient.buildUrl ⟨base, none⟩ layer bbox none ++ ("&count=" ++ toString m),
           none⟩) := by
  have hurl : WfsClient.buildUrl ⟨base, none⟩ layer bbox (some m)
      = WfsClient.buildUrl ⟨base, none⟩ layer bbox none
          ++ ("&count=" ++ toString m) := by
    rcases bbox with _ | b <;> simp [WfsClient.buildUrl, String.append_assoc]
  refine ⟨hurl, ?_⟩
  unfold WfsClient.fetch_features WfsClient.buildRequest
  rw [hurl]
  rfl

/-- C8: against the filesystem model, `save_tile_to_file` writes a file
whose content is byte-for-byte the input buffer when the path's
directory exists, and fails with an io error leaving the filesystem
completely unchanged (no partial file) when it does not. -/
theorem save_tile_to_file_spec (fs : FileSystem) (data : List Nat)
    (filepath : String) :
    (fs.dirs.contains (parentDir filepath) = true →
      (WmsClient.save_tile_to_file fs data filepath).1 = Except.ok ()
      ∧ ((WmsClient.save_tile_to_file fs data filepath).2).readFile filepath
          = some data)
    ∧ (fs.dirs.contains (parentDir filepath) = false →
      (WmsClient.save_tile_to_file fs data filepath).1 = Except.error ()
      ∧ (WmsClient.save_tile_to_file fs data filepath).2 = fs) := by
  constructor <;> intro h <;> simp at h <;>
    simp [WmsClient.save_tile_to_file, FileSystem.readFile, h,
      List.find?_cons_of_pos]

/-- Closed instance of the C8 theorem: a PNG header saved to the current
directory round-trips, and a path under a missing directory fails
leaving the filesystem untouched. -/
theorem save_tile_to_file_spec_witness :
    ((WmsClient.save_tile_to_file ⟨["."], []⟩ [137, 80, 78, 71] "map_tile.png").1
        = Except.ok ()
      ∧ ((WmsClient.save_tile_to_file ⟨["."], []⟩ [137, 80, 78, 71] "map_tile.png").2).readFile
          "map_tile.png" = some [137, 80, 78, 71])
    ∧ ((WmsClient.save_tile_to_file ⟨["."], []⟩ [1] "missing/dir/tile.png").1
        = Except.error ()
      ∧ (WmsClient.save_tile_to_file ⟨["."], []⟩ [1] "missing/dir/tile.png").2
          = ⟨["."], []⟩) :=
  ⟨(save_tile_to_file_spec ⟨["."], []⟩ [137, 80, 78, 71] "map_tile.png").1 (by decide),
   (save_tile_to_file_spec ⟨["."], []⟩ [1] "missing/dir/tile.png").2 (by decide)⟩

/-- C9: for fixed layers, bbox, width, height, srs and format, the tile
URLs built with `transparent = true` and `transparent = false` share a
common prefix ending in `&TRANSPARENT=` and a common suffix, and differ
only in the value `true` versus `false` between them. -/
theorem transparent_flag_only_url_difference (c : WmsClient)
    (layers bbox : String) (w h : Nat) (srs fmt : String) :
    ∃ pre post,
      c.buildUrl layers bbox w h srs fmt true = pre ++ "true" ++ post ∧
      c.buildUrl layers bbox w h srs fmt false = pre ++ "false" ++ post ∧
      (∃ pre0, pre = pre0 ++ "&TRANSPARENT=") := by
  obtain ⟨base, auth⟩ := c
  refine ⟨base ++ "?SERVICE=WMS&VERSION=1.3.0&REQUEST=GetMap&LAYERS=" ++ layers
      ++ "&BBOX=" ++ bbox ++ "&WIDTH=" ++ toString w ++ "&HEIGHT=" ++ toString h
      ++ "&CRS=" ++ srs ++ "&FORMAT=" ++ fmt ++ "&TRANSPARENT=",
    "&styles=default" ++ (match auth with
      | some (WmsAuth.apiKey p k) => "&" ++ p ++ "=" ++ k
      | _ => ""), ?_, ?_, ⟨_, rfl⟩⟩ <;>
  rcases auth with _ | (⟨u, p⟩ | t | ⟨p, k⟩ | s) <;>
    simp [WmsClient.buildUrl, String.append_assoc] <;> rfl

/-- C10: every successful `fetch_features` call returns a sequence of
length exactly 1: whatever the decoder produced from the whole body is
wrapped unconditionally as the single element of the result vector. -/
theorem fetch_features_result_always_singleton {G : Type}
    (c : WfsClient) (toGeo : String → Except Unit G)
    (transport : Request → Except Unit WfsResponse)
    (layer : String) (bbox : Option String) (max_features : Option Nat)
    (gs : List G)
    (h : c.fetch_features toGeo transport layer bbox max_features = Except.ok gs) :
    gs.length = 1 := by
  unfold WfsClient.fetch_features processWfsResponse at h
  split at h
  · cases h
  · split at h
    · split at h
      · cases h
        rfl
      · cases h
    · cases h

/-- Closed instance of the C10 theorem at a successful call. -/
theorem fetch_features_result_always_singleton_witness :
    @WfsClient.fetch_features Nat ⟨"http://example.com/wfs", none⟩
        (fun _ => Except.ok 5) (fun _ => Except.ok ⟨204, "collection"⟩)
        "roads" none none = Except.ok [5]
    ∧ ([5] : List Nat).length = 1 :=
  ⟨rfl, fetch_features_result_always_singleton ⟨"http://example.com/wfs", none⟩
      (fun _ => Except.ok 5) (fun _ => Except.ok ⟨204, "collection"⟩)
      "roads" none none [5] rfl⟩
